import Mathlib

/-!
# Peer-rejection errors of package p2p (errors.go)

A shallow embedding of the error values of `p2p/errors.go` and of their
`Error()` methods, with the statements of the specification proved over it.

Modelling conventions
* A Go `string` (and the named string type `ID`) is a Lean `String`.
* A value of interface type `error` is `GoError`: `nil`, or a value whose
  `Error()` method yields a text.
* A value of interface type `net.Conn` is `Option Conn`; a connection is
  known to `errors.go` only through `conn.RemoteAddr().String()`, which is the
  single field of `Conn`.  A connection whose `RemoteAddr()` is nil, on which
  that call panics, is not a `Conn`; `Runtime.ErrRejected` is the struct with
  every connection value, and `Runtime.ErrRejected.Error` tells a returned
  string from a panic.
* `fmt.Sprintf` is interpreted on the format strings of the source,
  character by character, for the verbs the source uses (`%s`, `%v`).
* A `net.IP` is its byte slice, and `IP.String` follows the method of the Go
  standard library.
* A `*NetAddress` is declared outside errors.go; it is known here only
  through the text that `%v` prints for it.
-/

namespace P2P

/-! ## Package fmt, as far as errors.go uses it -/

/-- A Go value of interface type `error`. -/
inductive GoError where
  | nil : GoError
  | val (text : String) : GoError
  deriving DecidableEq, Repr

/-- Operand handed to `fmt.Sprintf`: a string (or a value of a named string
type such as `ID`), a value of interface type `error`, or a value of a type
with a `String` method, given by the text that method returns. -/
inductive Operand where
  | str (s : String) : Operand
  | error (e : GoError) : Operand
  | stringer (text : String) : Operand
  deriving DecidableEq, Repr

/-- Text printed for an `error` operand under `%s`: the result of its
`Error()` method, and `%!s(<nil>)` for the nil interface. -/
def GoError.verbS : GoError → String
  | .nil => "%!s(<nil>)"
  | .val text => text

/-- Text printed for an `error` operand under `%v`: the result of its
`Error()` method, and `<nil>` for the nil interface. -/
def GoError.verbV : GoError → String
  | .nil => "<nil>"
  | .val text => text

/-- Text printed for one operand under the verb `c` (`s` or `v`). -/
def Operand.print (c : Char) : Operand → String
  | .str s => s
  | .error e => if c = 's' then e.verbS else e.verbV
  | .stringer text => text

/-- The scanning loop of `fmt.Sprintf` on the characters of the format:
literal text is copied, `%%` prints a percent sign, `%s` and `%v` print the
next operand, a verb with no operand left prints `%!s(MISSING)` resp.
`%!v(MISSING)`, and a format ending in `%` prints `%!(NOVERB)`.  Other verbs
and surplus operands (where package fmt prints diagnostics naming the operand's
dynamic type) do not occur in errors.go; the loop copies such a verb as text
and leaves surplus operands unprinted. -/
def sprintfLoop : List Char → List Operand → List Char
  | [], _ => []
  | [c], _ => if c = '%' then "%!(NOVERB)".data else [c]
  | c :: d :: rest, ops =>
    if c = '%' then
      if d = '%' then '%' :: sprintfLoop rest ops
      else if d = 's' ∨ d = 'v' then
        match ops with
        | [] => ['%', '!', d] ++ "(MISSING)".data ++ sprintfLoop rest []
        | op :: ops' => (op.print d).data ++ sprintfLoop rest ops'
      else c :: d :: sprintfLoop rest ops
    else c :: sprintfLoop (d :: rest) ops

/-- Model of `fmt.Sprintf(format, a...)`. -/
def Sprintf (format : String) (a : List Operand) : String :=
  String.mk (sprintfLoop format.data a)

/-! ## ErrRejected -/

/-- Go type `ID`.  Its declaration is outside errors.go; the source compares
`e.id` with the string literal `""`, so it is a named string type, printed by
`%v` and `%s` as the string itself. -/
abbrev ID := String

/-- A non-nil `net.Conn` whose `RemoteAddr()` is a non-nil address; errors.go
reads nothing of it but the string `conn.RemoteAddr().String()`. -/
structure Conn where
  remoteAddr : String
  deriving DecidableEq, Repr

/-- Go struct `ErrRejected`; `conn = none` is the nil interface. -/
structure ErrRejected where
  conn : Option Conn
  err : GoError
  id : ID
  isAuthFailure : Bool
  isDuplicate : Bool
  isFiltered : Bool
  isIncompatible : Bool
  isNodeInfoInvalid : Bool
  isSelf : Bool
  deriving DecidableEq, Repr

/-- Lines 27-38 of errors.go, the block `if e.isDuplicate { ... }`: the
string it returns, or `none` when control leaves the block without
returning. -/
def ErrRejected.duplicateBlock (e : ErrRejected) : Option String :=
  if e.isDuplicate then
    match e.conn with
    | some c => some (Sprintf "duplicate CONN<%s>: %s" [.str c.remoteAddr, .error e.err])
    | none =>
      if e.id ≠ "" then some (Sprintf "duplicate ID<%v>: %s" [.str e.id, .error e.err])
      else none
  else none

/-- Lines 40-52 of errors.go, the block `if e.isFiltered { ... }`: the string
it returns, or `none` when control leaves the block without returning. -/
def ErrRejected.filteredBlock (e : ErrRejected) : Option String :=
  if e.isFiltered then
    match e.conn with
    | some c => some (Sprintf "filtered CONN<%s>: %s" [.str c.remoteAddr, .error e.err])
    | none =>
      if e.id ≠ "" then some (Sprintf "filtered ID<%v>: %s" [.str e.id, .error e.err])
      else none
  else none

/-- Method `(e *ErrRejected) Error() string` of errors.go, lines 22-67. -/
def ErrRejected.Error (e : ErrRejected) : String :=
  if e.isAuthFailure then
    Sprintf "auth failure: %s" [.error e.err]
  else
    match e.duplicateBlock with
    | some s => s
    | none =>
      match e.filteredBlock with
      | some s => s
      | none =>
        if e.isIncompatible then
          Sprintf "incompatible: %s" [.error e.err]
        else if e.isNodeInfoInvalid then
          Sprintf "invalid NodeInfo: %s" [.error e.err]
        else if e.isSelf then
          Sprintf "self ID<%v>" [.str e.id]
        else
          Sprintf "%s" [.error e.err]

/-- Methods `IsAuthFailure`, ..., `IsSelf` of errors.go, lines 69-85. -/
def ErrRejected.IsAuthFailure (e : ErrRejected) : Bool := e.isAuthFailure

/-- Method `IsDuplicate`: when Peer ID or IP are present already. -/
def ErrRejected.IsDuplicate (e : ErrRejected) : Bool := e.isDuplicate

/-- Method `IsFiltered`: when Peer ID or IP was filtered. -/
def ErrRejected.IsFiltered (e : ErrRejected) : Bool := e.isFiltered

/-- Method `IsIncompatible`: when Peer NodeInfo is not compatible with our own. -/
def ErrRejected.IsIncompatible (e : ErrRejected) : Bool := e.isIncompatible

/-- Method `IsNodeInfoInvalid`: when the sent NodeInfo is not valid. -/
def ErrRejected.IsNodeInfoInvalid (e : ErrRejected) : Bool := e.isNodeInfoInvalid

/-- Method `IsSelf`: when Peer is our own node. -/
def ErrRejected.IsSelf (e : ErrRejected) : Bool := e.isSelf

/-! ## Address errors -/

/-- Go struct `ErrNetAddressNoID`. -/
structure ErrNetAddressNoID where
  Addr : String
  deriving DecidableEq, Repr

/-- Method `(e ErrNetAddressNoID) Error() string`, errors.go lines 141-143. -/
def ErrNetAddressNoID.Error (e : ErrNetAddressNoID) : String :=
  Sprintf "Address (%s) does not contain ID" [.str e.Addr]

/-- Go struct `ErrNetAddressInvalid`. -/
structure ErrNetAddressInvalid where
  Addr : String
  Err : GoError
  deriving DecidableEq, Repr

/-- Method `(e ErrNetAddressInvalid) Error() string`, errors.go lines 150-152. -/
def ErrNetAddressInvalid.Error (e : ErrNetAddressInvalid) : String :=
  Sprintf "Invalid address (%s): %v" [.str e.Addr, .error e.Err]

/-- Go struct `ErrNetAddressLookup`. -/
structure ErrNetAddressLookup where
  Addr : String
  Err : GoError
  deriving DecidableEq, Repr

/-- Method `(e ErrNetAddressLookup) Error() string`, errors.go lines 159-161. -/
def ErrNetAddressLookup.Error (e : ErrNetAddressLookup) : String :=
  Sprintf "Error looking up host (%s): %v" [.str e.Addr, .error e.Err]

/-! ## Switch and transport errors -/

/-- Go struct `ErrSwitchDuplicatePeerID`. -/
structure ErrSwitchDuplicatePeerID where
  ID : ID
  deriving DecidableEq, Repr

/-- Method `(e ErrSwitchDuplicatePeerID) Error() string`, errors.go lines 93-95. -/
def ErrSwitchDuplicatePeerID.Error (e : ErrSwitchDuplicatePeerID) : String :=
  Sprintf "Duplicate peer ID %v" [.str e.ID]

/-- Go standard library type `net.IP`, a byte slice; the nil slice is `[]`. -/
abbrev IP := List UInt8

/-- The constant `hexDigit = "0123456789abcdef"` of package net, indexed. -/
def hexDigit (n : Nat) : Char :=
  "0123456789abcdef".data.getD n '0'

/-- Function `appendHex` of package net: the lowercase hexadecimal digits of a
16-bit group without leading zeros, and `0` for zero. -/
def appendHex (w : Nat) : List Char :=
  if w = 0 then ['0']
  else
    [7, 6, 5, 4, 3, 2, 1, 0].filterMap fun j =>
      let v := w >>> (j * 4)
      if v > 0 then some (hexDigit (v % 16)) else none

/-- Function `hexString` of package net: two lowercase hexadecimal digits for
each byte. -/
def hexString (b : List UInt8) : List Char :=
  b.flatMap fun tn => [hexDigit (tn.toNat >>> 4), hexDigit (tn.toNat % 16)]

/-- Method `net.IP.To4`: the 4-byte form of an IPv4 address (given as 4 bytes,
or as 16 bytes with the prefix of an IPv4-mapped address), else nil. -/
def IP.To4 (ip : IP) : IP :=
  if ip.length = 4 then ip
  else if ip.length = 16 ∧ (ip.take 10).all (fun b => b == 0) = true
      ∧ ip.get? 10 = some 0xff ∧ ip.get? 11 = some 0xff then ip.drop 12
  else []

/-- The 16-bit groups of a 16-byte address, big-endian. -/
def ipGroups : List UInt8 → List Nat
  | hi :: lo :: rest => (hi.toNat * 256 + lo.toNat) :: ipGroups rest
  | _ => []

/-- Number of zero groups at the head of a list of groups. -/
def zeroRun : List Nat → Nat
  | 0 :: ws => zeroRun ws + 1
  | _ => 0

/-- The search of `net.IP.String` for the longest run of zero groups: `best`
is the pair (start, length) found so far, replaced only by a strictly longer
run, so that the first of the longest runs is kept. -/
def longestZeroRun : List Nat → Nat → Nat × Nat → Nat × Nat
  | [], _, best => best
  | w :: ws, i, best =>
    longestZeroRun ws (i + 1)
      (if zeroRun (w :: ws) > best.2 then (i, zeroRun (w :: ws)) else best)

/-- Groups in hexadecimal, separated by colons. -/
def joinGroups (ws : List Nat) : List Char :=
  ((ws.map appendHex).intersperse [':']).flatten

/-- The IPv6 text of `net.IP.String`: the groups in hexadecimal separated by
colons, with `::` in place of the first longest run of two or more zero
groups. -/
def ipv6Text (ws : List Nat) : List Char :=
  let run := longestZeroRun ws 0 (0, 0)
  if run.2 ≤ 1 then joinGroups ws
  else joinGroups (ws.take run.1) ++ [':', ':'] ++ joinGroups (ws.drop (run.1 + run.2))

/-- Method `net.IP.String` of the Go standard library: `<nil>` for an empty
slice, dotted decimal for an IPv4 address, the IPv6 text for any other 16-byte
address, and `?` followed by the bytes in hexadecimal for any other length. -/
def IP.String (ip : IP) : String :=
  if ip.length = 0 then "<nil>"
  else if ip.To4.length = 4 then
    String.mk ((ip.To4.map fun b => (Nat.repr b.toNat).data).intersperse ['.']).flatten
  else if ip.length ≠ 16 then String.mk ('?' :: hexString ip)
  else String.mk (ipv6Text (ipGroups ip))

/-- Go struct `ErrSwitchDuplicatePeerIP`. -/
structure ErrSwitchDuplicatePeerIP where
  IP : IP
  deriving DecidableEq, Repr

/-- Method `(e ErrSwitchDuplicatePeerIP) Error() string`, errors.go lines 103-105. -/
def ErrSwitchDuplicatePeerIP.Error (e : ErrSwitchDuplicatePeerIP) : String :=
  Sprintf "Duplicate peer IP %v" [.str e.IP.String]

/-- Modelled from the spec: type `NetAddress` is declared outside errors.go,
which only hands a `*NetAddress` to `fmt.Sprintf` under `%v`; the specification
prints it as `<addr>` resp. `<dialed>`.  The model keeps of a `*NetAddress`
(nil or not) the text that `%v` prints for it. -/
structure NetAddress where
  text : String
  deriving DecidableEq, Repr

/-- Go struct `ErrSwitchConnectToSelf`. -/
structure ErrSwitchConnectToSelf where
  Addr : NetAddress
  deriving DecidableEq, Repr

/-- Method `(e ErrSwitchConnectToSelf) Error() string`, errors.go lines 112-114. -/
def ErrSwitchConnectToSelf.Error (e : ErrSwitchConnectToSelf) : String :=
  Sprintf "Connect to self: %v" [.stringer e.Addr.text]

/-- Go struct `ErrSwitchAuthenticationFailure`. -/
structure ErrSwitchAuthenticationFailure where
  Dialed : NetAddress
  Got : ID
  deriving DecidableEq, Repr

/-- Method `(e ErrSwitchAuthenticationFailure) Error() string`, errors.go
lines 121-127. -/
def ErrSwitchAuthenticationFailure.Error (e : ErrSwitchAuthenticationFailure) : String :=
  Sprintf "Failed to authenticate peer. Dialed %v, but got peer with ID %s"
    [.stringer e.Dialed.text, .str e.Got]

/-- Go struct `ErrTransportClosed`, without fields. -/
structure ErrTransportClosed where
  deriving DecidableEq, Repr

/-- Method `(e ErrTransportClosed) Error() string`, errors.go lines 131-133. -/
def ErrTransportClosed.Error (_e : ErrTransportClosed) : String :=
  "transport has been closed"

/-! ## ErrRejected on every connection value -/

/-- A non-nil value of interface type `net.Conn`, as errors.go observes it:
the result of `RemoteAddr()`, which is the nil `net.Addr` (`none`) or an
address given by the text of its `String()` method. -/
structure Runtime.NetConn where
  RemoteAddr : Option String
  deriving DecidableEq, Repr

/-- Result of a call of `Error()`: the returned string, or a run-time panic
(a method call on a nil interface value). -/
inductive Runtime.Outcome where
  | returns (s : String) : Runtime.Outcome
  | panics : Runtime.Outcome
  deriving DecidableEq, Repr

/-- Go struct `ErrRejected` with any value of `net.Conn` in the field `conn`:
`none` is the nil interface, and a connection may report no remote address. -/
structure Runtime.ErrRejected where
  conn : Option Runtime.NetConn
  err : GoError
  id : ID
  isAuthFailure : Bool
  isDuplicate : Bool
  isFiltered : Bool
  isIncompatible : Bool
  isNodeInfoInvalid : Bool
  isSelf : Bool
  deriving DecidableEq, Repr

/-- Lines 27-38 of errors.go, the block `if e.isDuplicate { ... }`: what the
block does, or `none` when control leaves it without returning.  Line 31 calls
`String()` on the result of `e.conn.RemoteAddr()` without a nil check and
panics when that result is nil. -/
def Runtime.ErrRejected.duplicateBlock (e : Runtime.ErrRejected) :
    Option Runtime.Outcome :=
  if e.isDuplicate then
    match e.conn with
    | some c =>
      match c.RemoteAddr with
      | some a => some (.returns (Sprintf "duplicate CONN<%s>: %s" [.str a, .error e.err]))
      | none => some .panics
    | none =>
      if e.id ≠ "" then
        some (.returns (Sprintf "duplicate ID<%v>: %s" [.str e.id, .error e.err]))
      else none
  else none

/-- Lines 40-52 of errors.go, the block `if e.isFiltered { ... }`, with the
unchecked `e.conn.RemoteAddr().String()` of line 44. -/
def Runtime.ErrRejected.filteredBlock (e : Runtime.ErrRejected) :
    Option Runtime.Outcome :=
  if e.isFiltered then
    match e.conn with
    | some c =>
      match c.RemoteAddr with
      | some a => some (.returns (Sprintf "filtered CONN<%s>: %s" [.str a, .error e.err]))
      | none => some .panics
    | none =>
      if e.id ≠ "" then
        some (.returns (Sprintf "filtered ID<%v>: %s" [.str e.id, .error e.err]))
      else none
  else none

/-- Method `(e *ErrRejected) Error() string` of errors.go, lines 22-67, on
every value of the struct. -/
def Runtime.ErrRejected.Error (e : Runtime.ErrRejected) : Runtime.Outcome :=
  if e.isAuthFailure then
    .returns (Sprintf "auth failure: %s" [.error e.err])
  else
    match e.duplicateBlock with
    | some o => o
    | none =>
      match e.filteredBlock with
      | some o => o
      | none =>
        if e.isIncompatible then
          .returns (Sprintf "incompatible: %s" [.error e.err])
        else if e.isNodeInfoInvalid then
          .returns (Sprintf "invalid NodeInfo: %s" [.error e.err])
        else if e.isSelf then
          .returns (Sprintf "self ID<%v>" [.str e.id])
        else
          .returns (Sprintf "%s" [.error e.err])

/-- A value whose connection, if present, reports a remote address, as a
value of the struct with any connection. -/
def ErrRejected.toRuntime (e : ErrRejected) : Runtime.ErrRejected :=
  { conn := e.conn.map fun c => ⟨some c.remoteAddr⟩
    err := e.err
    id := e.id
    isAuthFailure := e.isAuthFailure
    isDuplicate := e.isDuplicate
    isFiltered := e.isFiltered
    isIncompatible := e.isIncompatible
    isNodeInfoInvalid := e.isNodeInfoInvalid
    isSelf := e.isSelf }

/-! ## The vocabulary of the specification -/

/-- The six facets of a rejection, in the priority order of the specification. -/
inductive Facet where
  | authFailure | duplicate | filtered | incompatible | nodeInfoInvalid | self
  deriving DecidableEq, Repr

/-- All facets, in priority order. -/
def Facet.all : List Facet :=
  [.authFailure, .duplicate, .filtered, .incompatible, .nodeInfoInvalid, .self]

/-- The field of `ErrRejected` that stores a facet. -/
def ErrRejected.facet (e : ErrRejected) : Facet → Bool
  | .authFailure => e.isAuthFailure
  | .duplicate => e.isDuplicate
  | .filtered => e.isFiltered
  | .incompatible => e.isIncompatible
  | .nodeInfoInvalid => e.isNodeInfoInvalid
  | .self => e.isSelf

/-- The predicate method that the interface offers for a facet. -/
def ErrRejected.predicate (e : ErrRejected) : Facet → Bool
  | .authFailure => e.IsAuthFailure
  | .duplicate => e.IsDuplicate
  | .filtered => e.IsFiltered
  | .incompatible => e.IsIncompatible
  | .nodeInfoInvalid => e.IsNodeInfoInvalid
  | .self => e.IsSelf

/-- The facets that are set on a value, in priority order; "exactly one facet
set" is `e.setFacets = [f]`, "no facet set" is `e.setFacets = []`. -/
def ErrRejected.setFacets (e : ErrRejected) : List Facet :=
  Facet.all.filter e.facet

/-- Specification, section 3: the message of a `duplicate` or `filtered`
facet, whose word is `word`: by connection if one is present, else by peer ID
if it is non-empty, else none (the facet is passed over). -/
def specConnOrID (word : String) (e : ErrRejected) : Option String :=
  match e.conn with
  | some c => some (word ++ " CONN<" ++ c.remoteAddr ++ ">: " ++ e.err.verbS)
  | none =>
    if e.id = "" then none
    else some (word ++ " ID<" ++ e.id ++ ">: " ++ e.err.verbS)

/-- Specification, sections 3 and 4.1: the branches of the rendering in their
fixed priority order authFailure, duplicate, filtered, incompatible,
nodeInfoInvalid, self, fallback; each entry is the message of the branch when
the branch applies and `none` when it does not. -/
def specBranches (e : ErrRejected) : List (Option String) :=
  [ if e.isAuthFailure then some ("auth failure: " ++ e.err.verbS) else none,
    if e.isDuplicate then specConnOrID "duplicate" e else none,
    if e.isFiltered then specConnOrID "filtered" e else none,
    if e.isIncompatible then some ("incompatible: " ++ e.err.verbS) else none,
    if e.isNodeInfoInvalid then some ("invalid NodeInfo: " ++ e.err.verbS) else none,
    if e.isSelf then some ("self ID<" ++ e.id ++ ">") else none,
    some e.err.verbS ]

/-- Specification: the rendering is the message of the first branch of the
priority order that applies. -/
def specError (e : ErrRejected) : Option String :=
  (specBranches e).findSome? id

/-! ## Evaluation of the format strings of errors.go -/

theorem sprintf_authFailure (x : GoError) :
    Sprintf "auth failure: %s" [.error x] = "auth failure: " ++ x.verbS := by
  apply String.ext
  simp [Sprintf, sprintfLoop, Operand.print]

theorem sprintf_duplicateConn (a : String) (x : GoError) :
    Sprintf "duplicate CONN<%s>: %s" [.str a, .error x]
      = "duplicate CONN<" ++ a ++ ">: " ++ x.verbS := by
  apply String.ext
  simp [Sprintf, sprintfLoop, Operand.print]

theorem sprintf_duplicateID (i : ID) (x : GoError) :
    Sprintf "duplicate ID<%v>: %s" [.str i, .error x]
      = "duplicate ID<" ++ i ++ ">: " ++ x.verbS := by
  apply String.ext
  simp [Sprintf, sprintfLoop, Operand.print]

theorem sprintf_filteredConn (a : String) (x : GoError) :
    Sprintf "filtered CONN<%s>: %s" [.str a, .error x]
      = "filtered CONN<" ++ a ++ ">: " ++ x.verbS := by
  apply String.ext
  simp [Sprintf, sprintfLoop, Operand.print]

theorem sprintf_filteredID (i : ID) (x : GoError) :
    Sprintf "filtered ID<%v>: %s" [.str i, .error x]
      = "filtered ID<" ++ i ++ ">: " ++ x.verbS := by
  apply String.ext
  simp [Sprintf, sprintfLoop, Operand.print]

theorem sprintf_incompatible (x : GoError) :
    Sprintf "incompatible: %s" [.error x] = "incompatible: " ++ x.verbS := by
  apply String.ext
  simp [Sprintf, sprintfLoop, Operand.print]

theorem sprintf_nodeInfoInvalid (x : GoError) :
    Sprintf "invalid NodeInfo: %s" [.error x] = "invalid NodeInfo: " ++ x.verbS := by
  apply String.ext
  simp [Sprintf, sprintfLoop, Operand.print]

theorem sprintf_self (i : ID) :
    Sprintf "self ID<%v>" [.str i] = "self ID<" ++ i ++ ">" := by
  apply String.ext
  simp [Sprintf, sprintfLoop, Operand.print]

theorem sprintf_fallback (x : GoError) :
    Sprintf "%s" [.error x] = x.verbS := by
  apply String.ext
  simp [Sprintf, sprintfLoop, Operand.print]

theorem sprintf_addressNoID (a : String) :
    Sprintf "Address (%s) does not contain ID" [.str a]
      = "Address (" ++ a ++ ") does not contain ID" := by
  apply String.ext
  simp [Sprintf, sprintfLoop, Operand.print]

theorem sprintf_addressInvalid (a : String) (x : GoError) :
    Sprintf "Invalid address (%s): %v" [.str a, .error x]
      = "Invalid address (" ++ a ++ "): " ++ x.verbV := by
  apply String.ext
  simp [Sprintf, sprintfLoop, Operand.print]

theorem sprintf_addressLookup (a : String) (x : GoError) :
    Sprintf "Error looking up host (%s): %v" [.str a, .error x]
      = "Error looking up host (" ++ a ++ "): " ++ x.verbV := by
  apply String.ext
  simp [Sprintf, sprintfLoop, Operand.print]

/-- The method `Error`, with every `Sprintf` call evaluated. -/
theorem ErrRejected.Error_eval (e : ErrRejected) :
    e.Error =
      if e.isAuthFailure then "auth failure: " ++ e.err.verbS
      else
        match e.duplicateBlock with
        | some s => s
        | none =>
          match e.filteredBlock with
          | some s => s
          | none =>
            if e.isIncompatible then "incompatible: " ++ e.err.verbS
            else if e.isNodeInfoInvalid then "invalid NodeInfo: " ++ e.err.verbS
            else if e.isSelf then "self ID<" ++ e.id ++ ">"
            else e.err.verbS := by
  simp only [ErrRejected.Error, sprintf_authFailure, sprintf_incompatible,
    sprintf_nodeInfoInvalid, sprintf_self, sprintf_fallback]

theorem ErrRejected.duplicateBlock_eval (e : ErrRejected) :
    e.duplicateBlock =
      if e.isDuplicate then
        match e.conn with
        | some c => some ("duplicate CONN<" ++ c.remoteAddr ++ ">: " ++ e.err.verbS)
        | none =>
          if e.id ≠ "" then some ("duplicate ID<" ++ e.id ++ ">: " ++ e.err.verbS)
          else none
      else none := by
  simp only [ErrRejected.duplicateBlock, sprintf_duplicateConn, sprintf_duplicateID]

theorem ErrRejected.filteredBlock_eval (e : ErrRejected) :
    e.filteredBlock =
      if e.isFiltered then
        match e.conn with
        | some c => some ("filtered CONN<" ++ c.remoteAddr ++ ">: " ++ e.err.verbS)
        | none =>
          if e.id ≠ "" then some ("filtered ID<" ++ e.id ++ ">: " ++ e.err.verbS)
          else none
      else none := by
  simp only [ErrRejected.filteredBlock, sprintf_filteredConn, sprintf_filteredID]

/-! ## Strings that cannot coincide -/

/-- A string differs from itself with a non-empty string put in front. -/
theorem ne_nonempty_append_self (u t : String) (h : u.length ≠ 0) : t ≠ u ++ t := by
  intro heq
  have hlen := congrArg String.length heq
  simp only [String.length_append] at hlen
  omega

/-- A concatenation is empty only if both parts are. -/
theorem append_eq_empty (u t : String) : u ++ t = "" ↔ u = "" ∧ t = "" := by
  simp [String.ext_iff]

theorem duplicateConn_prefix_length (a : String) :
    ("duplicate CONN<" ++ a ++ ">: ").length ≠ 0 := by
  have h : "duplicate CONN<".length = 15 := rfl
  simp only [String.length_append, h]
  omega

theorem duplicateID_prefix_length (a : String) :
    ("duplicate ID<" ++ a ++ ">: ").length ≠ 0 := by
  have h : "duplicate ID<".length = 13 := rfl
  simp only [String.length_append, h]
  omega

theorem filteredConn_prefix_length (a : String) :
    ("filtered CONN<" ++ a ++ ">: ").length ≠ 0 := by
  have h : "filtered CONN<".length = 14 := rfl
  simp only [String.length_append, h]
  omega

theorem filteredID_prefix_length (a : String) :
    ("filtered ID<" ++ a ++ ">: ").length ≠ 0 := by
  have h : "filtered ID<".length = 12 := rfl
  simp only [String.length_append, h]
  omega

/-- The branches below the filtered block never produce one of the four
connection or ID forms of the duplicate and filtered facets. -/
theorem lower_branches_ne_forms (i n s : Bool) (id t a : String) :
    (if i then "incompatible: " ++ t
      else if n then "invalid NodeInfo: " ++ t
      else if s then "self ID<" ++ id ++ ">"
      else t) ≠ "duplicate ID<" ++ a ++ ">: " ++ t ∧
    (if i then "incompatible: " ++ t
      else if n then "invalid NodeInfo: " ++ t
      else if s then "self ID<" ++ id ++ ">"
      else t) ≠ "filtered ID<" ++ a ++ ">: " ++ t := by
  have h2 := ne_nonempty_append_self _ t (duplicateID_prefix_length a)
  have h4 := ne_nonempty_append_self _ t (filteredID_prefix_length a)
  cases i <;> cases n <;> cases s <;>
    first
      | exact ⟨h2, h4⟩
      | simp [String.ext_iff]

/-- The branches below the filtered block never produce the connection form
of the filtered facet. -/
theorem lower_branches_ne_filteredConn (i n s : Bool) (id t a : String) :
    (if i then "incompatible: " ++ t
      else if n then "invalid NodeInfo: " ++ t
      else if s then "self ID<" ++ id ++ ">"
      else t) ≠ "filtered CONN<" ++ a ++ ">: " ++ t := by
  have h3 := ne_nonempty_append_self _ t (filteredConn_prefix_length a)
  cases i <;> cases n <;> cases s <;>
    first
      | exact h3
      | simp [String.ext_iff]

/-! ## The rendering of ErrRejected -/

/-- C1: for every ErrRejected value, Error() is the message of the first
applicable branch of the fixed priority order authFailure, duplicate,
filtered, incompatible, nodeInfoInvalid, self, fallback, where a duplicate or
filtered facet applies by connection when one is present, else by ID when the
ID is non-empty, and is passed over otherwise. -/
theorem Error_refines_priority_order (e : ErrRejected) :
    specError e = some e.Error := by
  rcases e with ⟨conn, err, id, a, d, f, i, n, s⟩
  rw [ErrRejected.Error_eval, ErrRejected.duplicateBlock_eval,
    ErrRejected.filteredBlock_eval]
  cases conn <;> by_cases hid : id = "" <;>
    cases a <;> cases d <;> cases f <;> cases i <;> cases n <;> cases s <;>
    simp [specError, specBranches, specConnOrID, hid]

/-- C2: for every ErrRejected value with exactly one facet set, Error() is
the row of the table of section 4.1 for that facet; the duplicate and the
filtered facet have a row for a present connection and a row for an absent
connection with a non-empty ID. -/
theorem Error_single_facet_table (e : ErrRejected) (f : Facet) (h : e.setFacets = [f]) :
    match f with
    | .authFailure => e.Error = "auth failure: " ++ e.err.verbS
    | .duplicate =>
      (∀ c, e.conn = some c →
        e.Error = "duplicate CONN<" ++ c.remoteAddr ++ ">: " ++ e.err.verbS) ∧
      (e.conn = none → e.id ≠ "" →
        e.Error = "duplicate ID<" ++ e.id ++ ">: " ++ e.err.verbS)
    | .filtered =>
      (∀ c, e.conn = some c →
        e.Error = "filtered CONN<" ++ c.remoteAddr ++ ">: " ++ e.err.verbS) ∧
      (e.conn = none → e.id ≠ "" →
        e.Error = "filtered ID<" ++ e.id ++ ">: " ++ e.err.verbS)
    | .incompatible => e.Error = "incompatible: " ++ e.err.verbS
    | .nodeInfoInvalid => e.Error = "invalid NodeInfo: " ++ e.err.verbS
    | .self => e.Error = "self ID<" ++ e.id ++ ">" := by
  rcases e with ⟨conn, err, id, a, d, fl, i, n, s⟩
  rw [ErrRejected.Error_eval, ErrRejected.duplicateBlock_eval,
    ErrRejected.filteredBlock_eval]
  cases a <;> cases d <;> cases fl <;> cases i <;> cases n <;> cases s <;>
    simp [ErrRejected.setFacets, Facet.all, ErrRejected.facet] at h <;>
    subst h <;> cases conn <;> by_cases hid : id = "" <;> simp [hid]

/-- Witness of C2: a value whose only facet is duplicate, with a connection. -/
theorem Error_single_facet_table_witness :
    (ErrRejected.mk (some ⟨"10.0.0.5:26656"⟩) (.val "already connected") "deadbeef"
        false true false false false false).Error
      = "duplicate CONN<10.0.0.5:26656>: already connected" :=
  (Error_single_facet_table
    (ErrRejected.mk (some ⟨"10.0.0.5:26656"⟩) (.val "already connected") "deadbeef"
      false true false false false false) .duplicate (by decide)).1 ⟨"10.0.0.5:26656"⟩ rfl

/-- C3: for every ErrRejected value with isAuthFailure set, Error() is
"auth failure: " followed by the text of the underlying error, whatever the
other five facets, conn and id are; so with isDuplicate set as well the
auth-failure message is rendered. -/
theorem Error_authFailure_wins (e : ErrRejected) (h : e.isAuthFailure = true) :
    e.Error = "auth failure: " ++ e.err.verbS ∧
    (∀ t, e.err = .val t → e.Error = "auth failure: " ++ t) := by
  rw [ErrRejected.Error_eval]
  refine ⟨by simp [h], ?_⟩
  intro t ht
  simp [h, ht, GoError.verbS]

/-- Witness of C3: isAuthFailure and isDuplicate both set, connection and ID
present. -/
theorem Error_authFailure_wins_witness :
    (ErrRejected.mk (some ⟨"10.0.0.5:26656"⟩) (.val "bad key") "deadbeef"
        true true false false false false).Error = "auth failure: bad key" :=
  (Error_authFailure_wins
    (ErrRejected.mk (some ⟨"10.0.0.5:26656"⟩) (.val "bad key") "deadbeef"
      true true false false false false) rfl).2 "bad key" rfl

/-- C4: for every ErrRejected value with isAuthFailure unset, no connection
and an empty ID, the duplicate and filtered facets fall through: Error() is
Error() of the same value with both facets cleared, which is the message of
the next set facet among incompatible, nodeInfoInvalid, self, or else the
underlying error verbatim; a value whose only facet is duplicate renders the
underlying error verbatim; and Error() is none of the four messages
"duplicate CONN<..>: <err>", "duplicate ID<..>: <err>", "filtered CONN<..>: <err>",
"filtered ID<..>: <err>". -/
theorem Error_falls_through_without_conn_and_id (e : ErrRejected)
    (hauth : e.isAuthFailure = false) (hconn : e.conn = none) (hid : e.id = "") :
    e.Error = ({ e with isDuplicate := false, isFiltered := false } : ErrRejected).Error ∧
    e.Error =
      (if e.isIncompatible then "incompatible: " ++ e.err.verbS
       else if e.isNodeInfoInvalid then "invalid NodeInfo: " ++ e.err.verbS
       else if e.isSelf then "self ID<" ++ e.id ++ ">"
       else e.err.verbS) ∧
    (e.setFacets = [.duplicate] → e.Error = e.err.verbS) ∧
    (∀ a : String,
      e.Error ≠ "duplicate CONN<" ++ a ++ ">: " ++ e.err.verbS ∧
      e.Error ≠ "duplicate ID<" ++ a ++ ">: " ++ e.err.verbS ∧
      e.Error ≠ "filtered CONN<" ++ a ++ ">: " ++ e.err.verbS ∧
      e.Error ≠ "filtered ID<" ++ a ++ ">: " ++ e.err.verbS) := by
  rcases e with ⟨conn, err, id, a, d, f, i, n, s⟩
  simp only at hauth hconn hid
  subst hauth hconn hid
  have hrow : (ErrRejected.mk none err "" false d f i n s).Error =
      (if i then "incompatible: " ++ err.verbS
       else if n then "invalid NodeInfo: " ++ err.verbS
       else if s then "self ID<" ++ "" ++ ">"
       else err.verbS) := by
    rw [ErrRejected.Error_eval, ErrRejected.duplicateBlock_eval,
      ErrRejected.filteredBlock_eval]
    cases d <;> cases f <;> simp
  refine ⟨?_, hrow, ?_, ?_⟩
  · rw [hrow, ErrRejected.Error_eval, ErrRejected.duplicateBlock_eval,
      ErrRejected.filteredBlock_eval]
    simp
  · intro h
    rw [hrow]
    cases d <;> cases f <;> cases i <;> cases n <;> cases s <;>
      simp [ErrRejected.setFacets, Facet.all, ErrRejected.facet] at h ⊢
  · intro b
    rw [hrow]
    have h1 := ne_nonempty_append_self _ err.verbS (duplicateConn_prefix_length b)
    have h2 := ne_nonempty_append_self _ err.verbS (duplicateID_prefix_length b)
    have h3 := ne_nonempty_append_self _ err.verbS (filteredConn_prefix_length b)
    have h4 := ne_nonempty_append_self _ err.verbS (filteredID_prefix_length b)
    cases i <;> cases n <;> cases s <;>
      first
        | exact ⟨h1, h2, h3, h4⟩
        | simp [String.ext_iff]

/-- Witness of C4: duplicate and filtered set without connection and ID, and
incompatible set below them. -/
theorem Error_falls_through_without_conn_and_id_witness :
    (ErrRejected.mk none (.val "version mismatch") "" false true true true false false).Error
      = (ErrRejected.mk none (.val "version mismatch") "" false false false true false
          false).Error :=
  (Error_falls_through_without_conn_and_id
    (ErrRejected.mk none (.val "version mismatch") "" false true true true false false)
    rfl rfl rfl).1

/-- Counterexample to C5 as stated: with no facet set and an underlying error
whose text is empty, Error() is the empty string. -/
theorem Error_empty_for_empty_cause :
    (ErrRejected.mk none (.val "") "" false false false false false false).Error = "" := by
  decide

/-- On a value whose connection, if present, reports a remote address,
Error() is the empty string exactly when the fallback branch renders
(isAuthFailure, isIncompatible, isNodeInfoInvalid and isSelf unset, and each of
isDuplicate, isFiltered unset or without connection and ID) and the underlying
error is a non-nil error whose text is empty. -/
theorem Error_empty_iff (e : ErrRejected) :
    e.Error = "" ↔
      (e.err = .val "" ∧ e.isAuthFailure = false ∧
        (e.isDuplicate = true → e.conn = none ∧ e.id = "") ∧
        (e.isFiltered = true → e.conn = none ∧ e.id = "") ∧
        e.isIncompatible = false ∧ e.isNodeInfoInvalid = false ∧ e.isSelf = false) := by
  rcases e with ⟨conn, err, id, a, d, f, i, n, s⟩
  rw [ErrRejected.Error_eval, ErrRejected.duplicateBlock_eval,
    ErrRejected.filteredBlock_eval]
  have hkey : err.verbS = "" ↔ err = GoError.val "" := by
    cases err with
    | nil => exact ⟨fun h => absurd h (by decide), fun h => by cases h⟩
    | val t => simp [GoError.verbS]
  rw [← hkey]
  generalize err.verbS = t
  cases conn <;> by_cases hid : id = "" <;>
    cases a <;> cases d <;> cases f <;> cases i <;> cases n <;> cases s <;>
    simp [hid, append_eq_empty]

/-- On a value whose connection, if present, reports a remote address, the
method returns, and it returns the string of the model without panics. -/
theorem Runtime.ErrRejected.Error_toRuntime (e : P2P.ErrRejected) :
    e.toRuntime.Error = .returns e.Error := by
  rcases e with ⟨conn, err, id, a, d, f, i, n, s⟩
  cases conn <;> by_cases hid : id = "" <;>
    cases a <;> cases d <;> cases f <;> cases i <;> cases n <;> cases s <;>
    simp [Runtime.ErrRejected.Error, Runtime.ErrRejected.duplicateBlock,
      Runtime.ErrRejected.filteredBlock, ErrRejected.toRuntime, P2P.ErrRejected.Error,
      P2P.ErrRejected.duplicateBlock, P2P.ErrRejected.filteredBlock, hid]

/-- The method panics exactly when the duplicate or the filtered block is
entered with a connection that reports no remote address. -/
theorem Runtime.ErrRejected.Error_panics_iff (e : Runtime.ErrRejected) :
    e.Error = .panics ↔
      (e.isAuthFailure = false ∧ (e.isDuplicate = true ∨ e.isFiltered = true) ∧
        e.conn = some ⟨none⟩) := by
  rcases e with ⟨conn, err, id, a, d, f, i, n, s⟩
  rcases conn with _ | ⟨_ | addr⟩ <;> by_cases hid : id = "" <;>
    cases a <;> cases d <;> cases f <;> cases i <;> cases n <;> cases s <;>
    simp [Runtime.ErrRejected.Error, Runtime.ErrRejected.duplicateBlock,
      Runtime.ErrRejected.filteredBlock, hid]

/-- C5, amended: on every ErrRejected value other than those on which the
duplicate or the filtered block is entered with a connection that reports no
remote address (isAuthFailure unset, isDuplicate or isFiltered set, conn
non-nil with RemoteAddr() nil; nothing is stated about those), Error() returns
a string, and the string is empty exactly when the fallback branch renders
(isAuthFailure, isIncompatible, isNodeInfoInvalid and isSelf unset, and each of
isDuplicate, isFiltered unset or without connection and ID) and the underlying
error is a non-nil error whose text is empty; otherwise it is non-empty. -/
theorem runtime_Error_nonempty_unless_empty_cause (e : Runtime.ErrRejected)
    (h : ¬ (e.isAuthFailure = false ∧ (e.isDuplicate = true ∨ e.isFiltered = true) ∧
      e.conn = some ⟨none⟩)) :
    ∃ s : String, e.Error = .returns s ∧
      (s = "" ↔
        (e.err = .val "" ∧ e.isAuthFailure = false ∧
          (e.isDuplicate = true → e.conn = none ∧ e.id = "") ∧
          (e.isFiltered = true → e.conn = none ∧ e.id = "") ∧
          e.isIncompatible = false ∧ e.isNodeInfoInvalid = false ∧ e.isSelf = false)) := by
  rcases e with ⟨conn, err, id, a, d, f, i, n, s⟩
  have hkey : err.verbS = "" ↔ err = GoError.val "" := by
    cases err with
    | nil => exact ⟨fun h => absurd h (by decide), fun h => by cases h⟩
    | val t => simp [GoError.verbS]
  rw [← hkey]
  simp only [Runtime.ErrRejected.Error, Runtime.ErrRejected.duplicateBlock,
    Runtime.ErrRejected.filteredBlock, sprintf_authFailure, sprintf_duplicateConn,
    sprintf_duplicateID, sprintf_filteredConn, sprintf_filteredID, sprintf_incompatible,
    sprintf_nodeInfoInvalid, sprintf_self, sprintf_fallback]
  generalize err.verbS = t
  rcases conn with _ | ⟨_ | addr⟩ <;> by_cases hid : id = "" <;>
    cases a <;> cases d <;> cases f <;> cases i <;> cases n <;> cases s <;>
    simp [hid, append_eq_empty] at h ⊢

/-- Witness of C5, amended: duplicate set on a connection that reports its
remote address; Error() returns a non-empty string. -/
theorem runtime_Error_nonempty_unless_empty_cause_witness :
    ∃ s : String,
      (Runtime.ErrRejected.mk (some ⟨some "10.0.0.5:26656"⟩) (.val "already connected")
        "deadbeef" false true false false false false).Error = .returns s ∧ s ≠ "" := by
  obtain ⟨s, hs, hiff⟩ := runtime_Error_nonempty_unless_empty_cause
    (Runtime.ErrRejected.mk (some ⟨some "10.0.0.5:26656"⟩) (.val "already connected")
      "deadbeef" false true false false false false) (by decide)
  exact ⟨s, hs, fun h0 => absurd (hiff.1 h0).1 (by decide)⟩

/-- C6: for every ErrRejected value rendered by the self branch (isSelf set,
isAuthFailure, isIncompatible and isNodeInfoInvalid unset, and each of
isDuplicate, isFiltered unset or without connection and ID), Error() consists
only of "self ID<", the peer ID and ">", and it is the same string whatever the
underlying error is: the text of the underlying error is not put into it. -/
theorem Error_self_omits_cause (e : ErrRejected)
    (hauth : e.isAuthFailure = false)
    (hdup : e.isDuplicate = true → e.conn = none ∧ e.id = "")
    (hfil : e.isFiltered = true → e.conn = none ∧ e.id = "")
    (hinc : e.isIncompatible = false) (hnode : e.isNodeInfoInvalid = false)
    (hself : e.isSelf = true) :
    e.Error = "self ID<" ++ e.id ++ ">" ∧
    ∀ x : GoError, ({ e with err := x } : ErrRejected).Error = e.Error := by
  rcases e with ⟨conn, err, id, a, d, f, i, n, s⟩
  simp only at hauth hdup hfil hinc hnode hself
  subst hauth hinc hnode hself
  have hrow : ∀ x : GoError,
      (ErrRejected.mk conn x id false d f false false true).Error
        = "self ID<" ++ id ++ ">" := by
    intro x
    rw [ErrRejected.Error_eval, ErrRejected.duplicateBlock_eval,
      ErrRejected.filteredBlock_eval]
    cases d <;> cases f <;> simp_all
  exact ⟨hrow err, fun x => by rw [hrow x, hrow err]⟩

/-- Witness of C6: only isSelf set, connection and ID present. -/
theorem Error_self_omits_cause_witness :
    (ErrRejected.mk (some ⟨"10.0.0.5:26656"⟩) (.val "connect to self") "deadbeef"
        false false false false false true).Error = "self ID<" ++ "deadbeef" ++ ">" :=
  (Error_self_omits_cause
    (ErrRejected.mk (some ⟨"10.0.0.5:26656"⟩) (.val "connect to self") "deadbeef"
      false false false false false true)
    rfl (fun h => by cases h) (fun h => by cases h) rfl rfl rfl).1

/-- C7: for every ErrRejected value with isAuthFailure unset, a set
duplicate facet renders by connection whenever a connection is present, also
when the ID is non-empty, and Error() is the ID form "duplicate ID<id>: <err>"
only when the connection is absent and the ID is non-empty; with isDuplicate
unset the same holds for a set filtered facet. -/
theorem Error_conn_before_id (e : ErrRejected) (hauth : e.isAuthFailure = false) :
    (e.isDuplicate = true →
      (∀ c, e.conn = some c →
        e.Error = "duplicate CONN<" ++ c.remoteAddr ++ ">: " ++ e.err.verbS) ∧
      (e.Error = "duplicate ID<" ++ e.id ++ ">: " ++ e.err.verbS ↔
        e.conn = none ∧ e.id ≠ "")) ∧
    (e.isDuplicate = false → e.isFiltered = true →
      (∀ c, e.conn = some c →
        e.Error = "filtered CONN<" ++ c.remoteAddr ++ ">: " ++ e.err.verbS) ∧
      (e.Error = "filtered ID<" ++ e.id ++ ">: " ++ e.err.verbS ↔
        e.conn = none ∧ e.id ≠ "")) := by
  rcases e with ⟨conn, err, id, a, d, f, i, n, s⟩
  simp only at hauth
  subst hauth
  simp only [ErrRejected.Error_eval, ErrRejected.duplicateBlock_eval,
    ErrRejected.filteredBlock_eval]
  have hlow := lower_branches_ne_forms i n s id err.verbS id
  generalize err.verbS = t at hlow
  generalize (if i = true then "incompatible: " ++ t
      else if n = true then "invalid NodeInfo: " ++ t
      else if s = true then "self ID<" ++ id ++ ">"
      else t) = low at hlow
  obtain ⟨hd, hf⟩ := hlow
  refine ⟨?_, ?_⟩
  · intro hdup
    subst hdup
    cases conn with
    | some c => simp [String.ext_iff]
    | none =>
      by_cases hid : id = ""
      · cases f <;> simp [hid] <;> simpa [hid] using hd
      · simp [hid]
  · intro hdup hfil
    subst hdup hfil
    cases conn with
    | some c => simp [String.ext_iff]
    | none =>
      by_cases hid : id = ""
      · simp [hid]
        simpa [hid] using hf
      · simp [hid]

/-- Witness of C7: duplicate set, connection and ID both present. -/
theorem Error_conn_before_id_witness :
    (ErrRejected.mk (some ⟨"10.0.0.5:26656"⟩) (.val "already connected") "deadbeef"
        false true false false false false).Error
      = "duplicate CONN<" ++ "10.0.0.5:26656" ++ ">: " ++ "already connected" :=
  ((Error_conn_before_id
    (ErrRejected.mk (some ⟨"10.0.0.5:26656"⟩) (.val "already connected") "deadbeef"
      false true false false false false) rfl).1 rfl).1 ⟨"10.0.0.5:26656"⟩ rfl

/-- C8: each of the six predicates returns its own facet, whatever conn, err,
id and the other facets are; hence on a value with exactly one facet set the
predicate of that facet returns true and the other five return false. -/
theorem predicates_return_own_facet (e : ErrRejected) :
    (e.IsAuthFailure = e.isAuthFailure ∧ e.IsDuplicate = e.isDuplicate ∧
      e.IsFiltered = e.isFiltered ∧ e.IsIncompatible = e.isIncompatible ∧
      e.IsNodeInfoInvalid = e.isNodeInfoInvalid ∧ e.IsSelf = e.isSelf) ∧
    (∀ f : Facet, e.setFacets = [f] → ∀ g : Facet, (e.predicate g = true ↔ g = f)) := by
  refine ⟨⟨rfl, rfl, rfl, rfl, rfl, rfl⟩, ?_⟩
  rcases e with ⟨conn, err, id, a, d, fl, i, n, s⟩
  intro f h g
  cases a <;> cases d <;> cases fl <;> cases i <;> cases n <;> cases s <;>
    simp [ErrRejected.setFacets, Facet.all, ErrRejected.facet] at h <;>
    subst h <;> cases g <;>
    simp [ErrRejected.predicate, ErrRejected.IsAuthFailure, ErrRejected.IsDuplicate,
      ErrRejected.IsFiltered, ErrRejected.IsIncompatible, ErrRejected.IsNodeInfoInvalid,
      ErrRejected.IsSelf]

/-- Witness of C8: on a value whose only facet is filtered, IsFiltered is true
and IsDuplicate is not. -/
theorem predicates_return_own_facet_witness :
    (ErrRejected.mk none (.val "banned") "deadbeef"
        false false true false false false).predicate .filtered = true ∧
    ¬ (ErrRejected.mk none (.val "banned") "deadbeef"
        false false true false false false).predicate .duplicate = true :=
  ⟨((predicates_return_own_facet
      (ErrRejected.mk none (.val "banned") "deadbeef" false false true false false false)).2
      .filtered (by decide) .filtered).2 rfl,
   fun h => absurd
    (((predicates_return_own_facet
      (ErrRejected.mk none (.val "banned") "deadbeef" false false true false false false)).2
      .filtered (by decide) .duplicate).1 h) (by decide)⟩

/-- C9: for every ErrRejected value with no facet set, Error() is the text of
the underlying error, verbatim, whatever conn and id are (a nil error is
printed by the verb %s as "%!s(<nil>)"). -/
theorem Error_no_facet_verbatim (e : ErrRejected) (h : e.setFacets = []) :
    e.Error = e.err.verbS ∧ (∀ t, e.err = .val t → e.Error = t) := by
  rcases e with ⟨conn, err, id, a, d, f, i, n, s⟩
  have hrow : (ErrRejected.mk conn err id a d f i n s).Error = err.verbS := by
    rw [ErrRejected.Error_eval, ErrRejected.duplicateBlock_eval,
      ErrRejected.filteredBlock_eval]
    cases a <;> cases d <;> cases f <;> cases i <;> cases n <;> cases s <;>
      simp [ErrRejected.setFacets, Facet.all, ErrRejected.facet] at h ⊢
  refine ⟨hrow, ?_⟩
  intro t ht
  simp only at ht
  rw [hrow, ht]
  rfl

/-- Witness of C9: no facet set, connection and ID present. -/
theorem Error_no_facet_verbatim_witness :
    (ErrRejected.mk (some ⟨"10.0.0.5:26656"⟩) (.val "i/o timeout") "deadbeef"
        false false false false false false).Error = "i/o timeout" :=
  (Error_no_facet_verbatim
    (ErrRejected.mk (some ⟨"10.0.0.5:26656"⟩) (.val "i/o timeout") "deadbeef"
      false false false false false false) (by decide)).2 "i/o timeout" rfl

/-! ## The rendering of the address errors -/

/-- C10: the address errors render their literal formats:
ErrNetAddressNoID as "Address (<addr>) does not contain ID",
ErrNetAddressInvalid as "Invalid address (<addr>): <err>" and
ErrNetAddressLookup as "Error looking up host (<addr>): <err>", for every
address string and every cause (a nil cause is printed by %v as "<nil>"). -/
theorem address_errors_render_formats (addr : String) (err : GoError) :
    (ErrNetAddressNoID.mk addr).Error = "Address (" ++ addr ++ ") does not contain ID" ∧
    (ErrNetAddressInvalid.mk addr err).Error = "Invalid address (" ++ addr ++ "): " ++ err.verbV ∧
    (ErrNetAddressLookup.mk addr err).Error
      = "Error looking up host (" ++ addr ++ "): " ++ err.verbV ∧
    (∀ t : String, (GoError.val t).verbV = t) :=
  ⟨sprintf_addressNoID addr, sprintf_addressInvalid addr err,
    sprintf_addressLookup addr err, fun _ => rfl⟩

/-! ## Interplay of the facets -/

/-- Every rendering is the self message or ends with the text of the cause. -/
theorem Error_self_or_suffix (e : ErrRejected) :
    (e.isSelf = true ∧ e.Error = "self ID<" ++ e.id ++ ">") ∨
    ∃ p : String, e.Error = p ++ e.err.verbS := by
  rcases e with ⟨conn, err, id, a, d, f, i, n, s⟩
  simp only [ErrRejected.Error_eval, ErrRejected.duplicateBlock_eval,
    ErrRejected.filteredBlock_eval]
  generalize err.verbS = t
  cases conn <;> by_cases hid : id = "" <;>
    cases a <;> cases d <;> cases f <;> cases i <;> cases n <;> cases s <;>
    simp only [hid, if_true, if_false, ne_eq, not_true_eq_false, not_false_eq_true,
      Bool.false_eq_true, true_and] <;>
    first
      | exact Or.inr ⟨_, rfl⟩
      | exact Or.inr ⟨"", rfl⟩
      | exact Or.inl rfl
      | exact Or.inl trivial

/-- C14: duplicate shadows filtered: for every ErrRejected value with
isDuplicate set, Error() is the same string when isFiltered is flipped, and it
is never a filtered message; the duplicate block returns the duplicate message
by connection or by non-empty ID (which is what Error() returns when
isAuthFailure is unset), and with neither connection nor ID the duplicate and
the filtered block both fall through. -/
theorem duplicate_shadows_filtered (e : ErrRejected) (hdup : e.isDuplicate = true) :
    e.Error = ({ e with isFiltered := !e.isFiltered } : ErrRejected).Error ∧
    (∀ a : String,
      e.Error ≠ "filtered CONN<" ++ a ++ ">: " ++ e.err.verbS ∧
      e.Error ≠ "filtered ID<" ++ a ++ ">: " ++ e.err.verbS) ∧
    (∀ c, e.conn = some c →
      e.duplicateBlock = some ("duplicate CONN<" ++ c.remoteAddr ++ ">: " ++ e.err.verbS)) ∧
    (e.conn = none → e.id ≠ "" →
      e.duplicateBlock = some ("duplicate ID<" ++ e.id ++ ">: " ++ e.err.verbS)) ∧
    (e.conn = none → e.id = "" → e.duplicateBlock = none ∧ e.filteredBlock = none) ∧
    (e.isAuthFailure = false →
      (∀ c, e.conn = some c →
        e.Error = "duplicate CONN<" ++ c.remoteAddr ++ ">: " ++ e.err.verbS) ∧
      (e.conn = none → e.id ≠ "" →
        e.Error = "duplicate ID<" ++ e.id ++ ">: " ++ e.err.verbS) ∧
      (e.conn = none → e.id = "" →
        e.Error
          = ({ e with isDuplicate := false, isFiltered := false } : ErrRejected).Error)) := by
  rcases e with ⟨conn, err, id, a, d, f, i, n, s⟩
  simp only at hdup
  subst hdup
  simp only [ErrRejected.Error_eval, ErrRejected.duplicateBlock_eval,
    ErrRejected.filteredBlock_eval]
  refine ⟨?_, ?_, ?_, ?_, ?_, ?_⟩
  · cases conn <;> by_cases hid : id = "" <;> cases a <;> cases f <;> simp [hid]
  · intro b
    have hlow := lower_branches_ne_forms i n s id err.verbS b
    have hconn := lower_branches_ne_filteredConn i n s id err.verbS b
    generalize err.verbS = t at hlow hconn
    generalize (if i = true then "incompatible: " ++ t
        else if n = true then "invalid NodeInfo: " ++ t
        else if s = true then "self ID<" ++ id ++ ">"
        else t) = low at hlow hconn
    cases conn <;> by_cases hid : id = "" <;> cases a <;> cases f <;>
      first
        | (simp [hid, String.ext_iff]; done)
        | (simp only [hid]; simp; exact ⟨hconn, hlow.2⟩)
  · intro c hc
    simp [hc]
  · intro hc hid
    simp [hc, hid]
  · intro hc hid
    cases f <;> simp [hc, hid]
  · intro ha
    subst ha
    refine ⟨?_, ?_, ?_⟩
    · intro c hc
      simp [hc]
    · intro hc hid
      simp [hc, hid]
    · intro hc hid
      cases f <;> simp [hc, hid]

/-- Witness of C14: duplicate and filtered both set, with a connection. -/
theorem duplicate_shadows_filtered_witness :
    (ErrRejected.mk (some ⟨"10.0.0.5:26656"⟩) (.val "already connected") "deadbeef"
        false true true false false false).Error
      = (ErrRejected.mk (some ⟨"10.0.0.5:26656"⟩) (.val "already connected") "deadbeef"
          false true false false false false).Error :=
  (duplicate_shadows_filtered
    (ErrRejected.mk (some ⟨"10.0.0.5:26656"⟩) (.val "already connected") "deadbeef"
      false true true false false false) rfl).1

/-- C15: for every ErrRejected value with isSelf unset, the text of the
underlying error is a suffix of Error(); and whenever it is not a suffix, the
value has isSelf set and Error() is the self message, so only the self branch
drops the cause. -/
theorem cause_is_suffix_unless_self (e : ErrRejected) :
    (e.isSelf = false → ∃ p : String, e.Error = p ++ e.err.verbS) ∧
    ((¬ ∃ p : String, e.Error = p ++ e.err.verbS) →
      e.isSelf = true ∧ e.Error = "self ID<" ++ e.id ++ ">") := by
  rcases Error_self_or_suffix e with h | h
  · exact ⟨fun hs => by rw [hs] at h; exact absurd h.1 (by decide), fun _ => h⟩
  · exact ⟨fun _ => h, fun hn => absurd h hn⟩

/-- Witness of C15: isSelf unset, incompatible set. -/
theorem cause_is_suffix_unless_self_witness :
    ∃ p : String,
      (ErrRejected.mk none (.val "version mismatch") "deadbeef"
        false false false true false false).Error
        = p ++ (GoError.val "version mismatch").verbS :=
  (cause_is_suffix_unless_self
    (ErrRejected.mk none (.val "version mismatch") "deadbeef"
      false false false true false false)).1 rfl

/-- C16: the rendered string does not determine the rejection reason: a value
with isAuthFailure set and cause text t, and a value with no facet set and
cause text "auth failure: " followed by t, render the same string, while
IsAuthFailure is true on the first and false on the second; so no function of
the rendered string computes IsAuthFailure. -/
theorem rendering_does_not_determine_reason :
    (∀ t : String,
      (ErrRejected.mk none (.val t) "" true false false false false false).Error
        = (ErrRejected.mk none (.val ("auth failure: " ++ t)) ""
            false false false false false false).Error) ∧
    (ErrRejected.mk none (.val "x") "" true false false false false false).Error
      = "auth failure: x" ∧
    (ErrRejected.mk none (.val "auth failure: x") ""
      false false false false false false).Error = "auth failure: x" ∧
    (ErrRejected.mk none (.val "x") "" true false false false false false).IsAuthFailure
      = true ∧
    (ErrRejected.mk none (.val "auth failure: x") ""
      false false false false false false).IsAuthFailure = false ∧
    ¬ ∃ f : String → Bool, ∀ e : ErrRejected, f e.Error = e.IsAuthFailure := by
  have hall : ∀ t : String,
      (ErrRejected.mk none (.val t) "" true false false false false false).Error
        = (ErrRejected.mk none (.val ("auth failure: " ++ t)) ""
            false false false false false false).Error := by
    intro t
    simp only [ErrRejected.Error_eval, ErrRejected.duplicateBlock_eval,
      ErrRejected.filteredBlock_eval]
    simp [GoError.verbS]
  refine ⟨hall, by decide, by decide, rfl, rfl, ?_⟩
  rintro ⟨f, hf⟩
  have h1 := hf (ErrRejected.mk none (.val "x") "" true false false false false false)
  have h2 := hf (ErrRejected.mk none (.val ("auth failure: " ++ "x")) ""
    false false false false false false)
  rw [hall "x", h2] at h1
  exact absurd h1 (by decide)

/-! ## The rendering of the switch and transport errors -/

theorem sprintf_duplicatePeerID (i : ID) :
    Sprintf "Duplicate peer ID %v" [.str i] = "Duplicate peer ID " ++ i := by
  apply String.ext
  simp [Sprintf, sprintfLoop, Operand.print]

theorem sprintf_duplicatePeerIP (a : String) :
    Sprintf "Duplicate peer IP %v" [.str a] = "Duplicate peer IP " ++ a := by
  apply String.ext
  simp [Sprintf, sprintfLoop, Operand.print]

theorem sprintf_connectToSelf (a : String) :
    Sprintf "Connect to self: %v" [.stringer a] = "Connect to self: " ++ a := by
  apply String.ext
  simp [Sprintf, sprintfLoop, Operand.print]

theorem sprintf_authenticationFailure (a : String) (i : ID) :
    Sprintf "Failed to authenticate peer. Dialed %v, but got peer with ID %s"
        [.stringer a, .str i]
      = "Failed to authenticate peer. Dialed " ++ a ++ ", but got peer with ID " ++ i := by
  apply String.ext
  simp [Sprintf, sprintfLoop, Operand.print]

/-- C11: for every peer ID, ErrSwitchDuplicatePeerID renders as
"Duplicate peer ID " followed by the ID, and ErrTransportClosed renders as the
constant string "transport has been closed". -/
theorem duplicatePeerID_and_transportClosed_render (id : ID) :
    (ErrSwitchDuplicatePeerID.mk id).Error = "Duplicate peer ID " ++ id ∧
    ErrTransportClosed.mk.Error = "transport has been closed" :=
  ⟨sprintf_duplicatePeerID id, rfl⟩

/-- C12: for every IP address, ErrSwitchDuplicatePeerIP renders as
"Duplicate peer IP " followed by the textual form ip.String() of the address;
for the IPv4 address 10.0.0.5, given by 4 bytes or as the 16-byte IPv4-mapped
slice, it is "Duplicate peer IP 10.0.0.5". -/
theorem duplicatePeerIP_renders (ip : IP) :
    (ErrSwitchDuplicatePeerIP.mk ip).Error = "Duplicate peer IP " ++ ip.String ∧
    (ErrSwitchDuplicatePeerIP.mk [10, 0, 0, 5]).Error = "Duplicate peer IP 10.0.0.5" ∧
    (ErrSwitchDuplicatePeerIP.mk
        [0, 0, 0, 0, 0, 0, 0, 0, 0, 0, 0xff, 0xff, 10, 0, 0, 5]).Error
      = "Duplicate peer IP 10.0.0.5" :=
  ⟨sprintf_duplicatePeerIP ip.String, by decide, by decide⟩

/-- C13: for every dialed address and every received peer ID,
ErrSwitchAuthenticationFailure renders as "Failed to authenticate peer. Dialed "
followed by the text of the dialed address, ", but got peer with ID " and the
received ID, in this order; for every address, ErrSwitchConnectToSelf renders
as "Connect to self: " followed by the text of the address. -/
theorem authenticationFailure_and_connectToSelf_render
    (dialed addr : NetAddress) (got : ID) :
    (ErrSwitchAuthenticationFailure.mk dialed got).Error
      = "Failed to authenticate peer. Dialed " ++ dialed.text
          ++ ", but got peer with ID " ++ got ∧
    (ErrSwitchConnectToSelf.mk addr).Error = "Connect to self: " ++ addr.text :=
  ⟨sprintf_authenticationFailure dialed.text got, sprintf_connectToSelf addr.text⟩

/-- C17: the two duplicate-peer errors never render the same string, for every
peer ID and every IP address: each rendering starts with its fixed prefix of 18
characters, "Duplicate peer ID " resp. "Duplicate peer IP ", and the two
prefixes differ. -/
theorem duplicatePeerID_ne_duplicatePeerIP (id : ID) (ip : IP) :
    (ErrSwitchDuplicatePeerID.mk id).Error ≠ (ErrSwitchDuplicatePeerIP.mk ip).Error ∧
    (ErrSwitchDuplicatePeerID.mk id).Error.data.take 18 = "Duplicate peer ID ".data ∧
    (ErrSwitchDuplicatePeerIP.mk ip).Error.data.take 18 = "Duplicate peer IP ".data := by
  have h1 : (ErrSwitchDuplicatePeerID.mk id).Error = "Duplicate peer ID " ++ id :=
    sprintf_duplicatePeerID id
  have h2 : (ErrSwitchDuplicatePeerIP.mk ip).Error = "Duplicate peer IP " ++ ip.String :=
    sprintf_duplicatePeerIP ip.String
  rw [h1, h2]
  refine ⟨?_, ?_, ?_⟩
  · simp [String.ext_iff]
  · simp
  · simp

end P2P
